import Mathlib

/-- JSON-like values stored in response params, slots and resolution maps,
mirroring the `Any`-typed dictionary values of the Python orchestrator. -/
inductive PyVal where
  | vNone : PyVal
  | vStr : String → PyVal
  | vInt : Int → PyVal
  | vList : List PyVal → PyVal
deriving Repr

/-- Whitespace test matching Python's `str.isspace` / regex `\s` for `str`
patterns: ASCII whitespace, the C1 separators, and the Unicode space
characters (NEL, NBSP, OGHAM, the EN-QUAD..HAIR range, LS, PS, NNBSP, MMSP,
IDEOGRAPHIC SPACE). -/
def pyIsSpace (c : Char) : Bool :=
  let n := c.toNat
  (decide (9 ≤ n) && decide (n ≤ 13)) || (decide (28 ≤ n) && decide (n ≤ 31)) ||
  n == 32 || n == 0x85 || n == 0xA0 || n == 0x1680 ||
  (decide (0x2000 ≤ n) && decide (n ≤ 0x200A)) ||
  n == 0x2028 || n == 0x2029 || n == 0x202F || n == 0x205F || n == 0x3000

/-- Word-character test for the regex `\b` boundary, modelling Python's `\w`
restricted to the character ranges this program's transcripts use: ASCII
alphanumerics, underscore, and the Cyrillic block U+0400–U+04FF. -/
def isWordChar (c : Char) : Bool :=
  c.isAlphanum || c == '_' ||
  (decide (0x400 ≤ c.toNat) && decide (c.toNat ≤ 0x4FF))

/-- Single-character lowering modelling Python's `str.lower` on the ranges
this program uses: ASCII letters, the Cyrillic block (А–Я, and the
Ё/Є/І/Ї row U+0400–U+040F), and Ґ. Other characters are unchanged. -/
def pyLowerChar (c : Char) : Char :=
  let n := c.toNat
  if 65 ≤ n ∧ n ≤ 90 then Char.ofNat (n + 32)
  else if 0x410 ≤ n ∧ n ≤ 0x42F then Char.ofNat (n + 0x20)
  else if 0x400 ≤ n ∧ n ≤ 0x40F then Char.ofNat (n + 0x50)
  else if n = 0x490 then Char.ofNat 0x491
  else c

/-- Single-character uppering (inverse of `pyLowerChar` on its ranges),
used only to model `str.title` in the hotkey slot formatting. -/
def pyUpperChar (c : Char) : Char :=
  let n := c.toNat
  if 97 ≤ n ∧ n ≤ 122 then Char.ofNat (n - 32)
  else if 0x430 ≤ n ∧ n ≤ 0x44F then Char.ofNat (n - 0x20)
  else if 0x450 ≤ n ∧ n ≤ 0x45F then Char.ofNat (n - 0x50)
  else if n = 0x491 then Char.ofNat 0x490
  else c

/-- Letter test used by the `str.title` model to decide word starts. -/
def isLetterish (c : Char) : Bool :=
  c.isAlpha || (decide (0x400 ≤ c.toNat) && decide (c.toNat ≤ 0x4FF))

/-- Python `str.lower` on whole strings (per-character on our ranges). -/
def pyLower (s : String) : String :=
  String.mk (s.data.map pyLowerChar)

/-- Drop trailing whitespace from a character list (Python `str.rstrip`). -/
def dropTrailSpace (l : List Char) : List Char :=
  (l.reverse.dropWhile pyIsSpace).reverse

/-- Python `str.strip`: drop leading and trailing whitespace. -/
def pyStrip (s : String) : String :=
  String.mk (dropTrailSpace (s.data.dropWhile pyIsSpace))

/-- Python `str.rstrip` on strings. -/
def pyRstrip (s : String) : String :=
  String.mk (dropTrailSpace s.data)

/-- Substring containment, modelling Python's `needle in haystack`. -/
def hasSub (needle : List Char) : List Char → Bool
  | [] => needle.isPrefixOf []
  | c :: cs => needle.isPrefixOf (c :: cs) || hasSub needle cs

/-- Numeric value of an ASCII digit run, modelling `int()` on a `\d+` group. -/
def digitsToNat (l : List Char) : Nat :=
  l.foldl (fun a c => a * 10 + (c.toNat - 48)) 0

/-- Python slice `l[:k]` for an arbitrary (possibly negative) stop index. -/
def pySliceTo (l : List Char) (k : Int) : List Char :=
  if 0 ≤ k then l.take k.toNat else l.take ((l.length : Int) + k).toNat

/-- TTS length limiter, from `_apply_tts_limit`: return the text unchanged
when no limit is given or it fits, otherwise truncate to `limit - 1`
characters (Python slice semantics), strip trailing whitespace, and append
one ellipsis character. -/
def apply_tts_limit (text : String) (max_chars : Option Int) : String :=
  match max_chars with
  | none => text
  | some m =>
    if (text.length : Int) ≤ m then text
    else String.mk (dropTrailSpace (pySliceTo text.data (m - 1)) ++ ['…'])

/-- Split a character list at every occurrence of a delimiter character,
modelling `re.split(r"[+ ]", combo)` (empty segments are kept). -/
def pySplitChars (p : Char → Bool) : List Char → List (List Char)
  | [] => [[]]
  | c :: cs =>
    let rest := pySplitChars p cs
    if p c then [] :: rest
    else
      match rest with
      | [] => [[c]]
      | h :: t => (c :: h) :: t

/-- Python `str.title` restricted to our character ranges: a letter that
follows a non-letter is uppercased, a letter following a letter is
lowercased. -/
def pyTitleAux : Bool → List Char → List Char
  | _, [] => []
  | prevCased, c :: cs =>
    (if prevCased then pyLowerChar c else pyUpperChar c) :: pyTitleAux (isLetterish c) cs

/-- Python `str.title` on strings. -/
def pyTitle (s : String) : String :=
  String.mk (pyTitleAux false s.data)

/-- A named context entity (app, window, folder or macro entry): the
name-like lookup fields plus the domain fields `path` and `id` carried
through to params and resolution metadata. `none` models an absent key. -/
structure Entry where
  name : Option String := none
  title : Option String := none
  label : Option String := none
  path : PyVal := PyVal.vNone
  id : PyVal := PyVal.vNone
deriving Repr

/-- An alias table row: `{name, maps_to}`. -/
structure AliasEntry where
  name : Option String := none
  maps_to : Option String := none
deriving Repr

/-- A search-result item consumed by `speak_results` summarisation. -/
structure ResultItem where
  title : Option String := none
  name : Option String := none
  snippet : Option String := none
  summary : Option String := none
deriving Repr

/-- The request payload of `process_request`. Policy flags are the boolean
entries of the `policies` mapping (the source applies `bool()` to them);
`tts_max_chars` is the optional integer entry of the same mapping. -/
structure Payload where
  state : String := "passive"
  transcript : String := ""
  locale : String := "uk-UA"
  policies : List (String × Bool) := []
  tts_max_chars : Option Int := none
  apps : List Entry := []
  windows : List Entry := []
  folders : List Entry := []
  macros : List Entry := []
  aliases : List AliasEntry := []
  result_set : List ResultItem := []
  llm_summary : Option String := none
  default_search_engine : Option String := none

/-- The `confirmation` part of a response. -/
structure Confirm where
  required : Bool := false
  phrase : String := ""
deriving Repr

/-- The `tts` part of a response. -/
structure TtsOut where
  say : String := ""
  display : String := ""
deriving Repr

/-- One policy-gate evaluation entry of `log.policy_checks`. -/
structure GateCheck where
  policy : String
  status : String
deriving Repr

/-- The `log` part of a response. -/
structure LogInfo where
  intent_detected : String := ""
  confidence : Rat := 0
  slots : List (String × PyVal) := []
  policy_checks : List GateCheck := []
  resolution : List (String × PyVal) := []
  errors : List String := []
deriving Repr

/-- The full response document; its default value is `_base_response()`. -/
structure Response where
  action : String := "none"
  params : List (String × PyVal) := []
  confirmation : Confirm := {}
  tts : TtsOut := {}
  log : LogInfo := {}
  need_more_info : String := ""
deriving Repr

/-- The fixed supported-action set of the orchestrator. -/
def SUPPORTED_ACTIONS : List String :=
  ["run_app", "focus_window", "hotkey", "audio_control", "system_toggle",
   "open_folder", "file_search", "file_list", "mkdir_here", "open_recent",
   "text_input", "web_search", "speak_results", "run_macro", "llm_query",
   "llm_summarize", "none"]

/-- Internal candidate outcome of one intent handler (`IntentResult`). -/
structure IntentResult where
  response : Response
  confidence : Rat
  slots : List (String × PyVal)
  tts : String := ""
  resolution : List (String × PyVal) := []

/-- Response fragment produced by `_intent_response`: the base response with
the given action and params. -/
def intent_response (action : String) (params : List (String × PyVal)) : Response :=
  { action := action, params := params }

/-- Truthiness of an optional string (Python `if value:`). -/
def truthyStr : Option String → Bool
  | none => false
  | some s => decide (s ≠ "")

/-- Case-insensitive entity lookup (`_resolve_dict`): return the first entry
whose `name`, `title` or `label` is non-empty and lowercases to the spoken
name's lowercase form. -/
def resolve_dict (entries : List Entry) (name : String) : Option Entry :=
  let nl := pyLower name
  entries.find? (fun e =>
    (match e.name with | some v => decide (v ≠ "") && (pyLower v == nl) | none => false) ||
    (match e.title with | some v => decide (v ≠ "") && (pyLower v == nl) | none => false) ||
    (match e.label with | some v => decide (v ≠ "") && (pyLower v == nl) | none => false))

/-- Alias lookup (`_match_alias`): first alias whose non-empty `name`
matches the spoken text case-insensitively yields its non-empty `maps_to`. -/
def match_alias (aliases : List AliasEntry) (spoken : String) : Option String :=
  let sl := pyLower spoken
  aliases.findSome? (fun al =>
    match al.name, al.maps_to with
    | some n, some t => if n ≠ "" ∧ t ≠ "" ∧ pyLower n = sl then some t else none
    | _, _ => none)

/-- The static action-to-policy-flag mapping of `_policy_gate_checks`. -/
def action_gate_policy (a : String) : Option String :=
  match a with
  | "run_app" => some "allow_run_apps"
  | "focus_window" => some "allow_run_apps"
  | "hotkey" => some "allow_hotkeys"
  | "audio_control" => some "allow_audio"
  | "system_toggle" => some "allow_system_toggle"
  | "open_folder" => some "allow_file_ops"
  | "file_search" => some "allow_file_ops"
  | "file_list" => some "allow_file_ops"
  | "mkdir_here" => some "allow_file_ops"
  | "open_recent" => some "allow_file_ops"
  | "text_input" => some "dictation"
  | "web_search" => some "allow_network_search"
  | "llm_query" => some "allow_llm_query"
  | "llm_summarize" => some "allow_llm_summarize"
  | _ => none

/-- One computed policy gate (`PolicyGate` dataclass). -/
structure PolicyGate where
  name : String
  allowed : Bool
  deny_action : String

/-- Policy flag lookup with deny-by-default (`policies.get(name, False)`). -/
def lookup_flag (policies : List (String × Bool)) (nm : String) : Bool :=
  match policies.find? (fun kv => kv.1 == nm) with
  | some kv => kv.2
  | none => false

/-- Gate computation for an action (`_policy_gate_checks`): zero gates for
unmapped actions, otherwise one gate carrying the evaluated flag. -/
def policy_gate_checks (action : String) (policies : List (String × Bool)) :
    List PolicyGate :=
  match action_gate_policy action with
  | none => []
  | some nm => [⟨nm, lookup_flag policies nm, "policy_violation"⟩]

/-- Position scanner modelling `re.search`: try the pattern tail at every
position from the left, including the end-of-string position. -/
def scanOpt (f : List Char → Option α) : List Char → Option α
  | [] => f []
  | c :: cs =>
    match f (c :: cs) with
    | some a => some a
    | none => scanOpt f cs

/-- Position scanner for patterns starting with `\b` before a word
character: the attempt at a position is made only when the previous
character is not a word character. -/
def scanWordB (f : List Char → Option α) : Bool → List Char → Option α
  | _, [] => none
  | prev, c :: cs =>
    match (if prev then none else f (c :: cs)) with
    | some a => some a
    | none => scanWordB f (isWordChar c) cs

/-- Tail matcher for `\s+(.+)` with Python backtracking: at least one
whitespace character, then the greedy dot-run; when everything after the
whitespace run is empty, the quantifier gives characters back one at a
time and the dot-run restarts inside the whitespace. Returns group text. -/
def matchSpacePlus (s : List Char) : Option (List Char) :=
  match s with
  | [] => none
  | c :: _ =>
    if pyIsSpace c then
      let r := s.dropWhile pyIsSpace
      if r.isEmpty then
        List.findSome? (fun k =>
          if 1 ≤ k ∧ s.getD k '\n' ≠ '\n' then
            some ((s.drop k).takeWhile (fun d => d ≠ '\n'))
          else none)
          ((List.range s.length).reverse)
      else some (r.takeWhile (fun d => d ≠ '\n'))
    else none

/-- Tail matcher for `\s*(.+)`: like `matchSpacePlus` but the whitespace
run may be empty. -/
def matchSpaceStar (s : List Char) : Option (List Char) :=
  let r := s.dropWhile pyIsSpace
  if r.isEmpty then
    List.findSome? (fun k =>
      if s.getD k '\n' ≠ '\n' then
        some ((s.drop k).takeWhile (fun d => d ≠ '\n'))
      else none)
      ((List.range s.length).reverse)
  else some (r.takeWhile (fun d => d ≠ '\n'))

/-- Matcher for `\s+LIT` where `LIT` starts with a non-whitespace
character: one maximal whitespace run directly followed by the literal;
returns the remainder after the literal. -/
def wsLitRest (lit : List Char) (s : List Char) : Option (List Char) :=
  match s with
  | [] => none
  | c :: _ =>
    if pyIsSpace c then
      let r := s.dropWhile pyIsSpace
      if lit.isPrefixOf r then some (r.drop lit.length) else none
    else none

/-- Test for `\s+LIT` with the remainder discarded. -/
def wsThenLit (lit : List Char) (s : List Char) : Bool :=
  (wsLitRest lit s).isSome

/-- Group search for `\b(відкрий|запусти)\s+(.+)` (`_handle_run_app`). -/
def searchRunApp (l : List Char) : Option (List Char) :=
  scanWordB (fun s =>
    let k1 := "відкрий".data
    let k2 := "запусти".data
    if k1.isPrefixOf s then matchSpacePlus (s.drop k1.length)
    else if k2.isPrefixOf s then matchSpacePlus (s.drop k2.length)
    else none) false l

/-- Group search for `\b(перемкнись|переключись|перейди)\s+на\s+(.+)`
(`_handle_focus_window`). -/
def searchFocusWindow (l : List Char) : Option (List Char) :=
  scanWordB (fun s =>
    let try1 := fun (kw : List Char) =>
      if kw.isPrefixOf s then
        match wsLitRest "на".data (s.drop kw.length) with
        | some rest => matchSpacePlus rest
        | none => none
      else none
    match try1 "перемкнись".data with
    | some g => some g
    | none =>
      match try1 "переключись".data with
      | some g => some g
      | none => try1 "перейди".data) false l

/-- Character class `[a-zа-я0-9+\s]` of the hotkey combination pattern.
The Cyrillic range а–я is U+0430–U+044F. -/
def hotkeyClass (c : Char) : Bool :=
  (decide ('a' ≤ c) && decide (c ≤ 'z')) ||
  (decide (0x430 ≤ c.toNat) && decide (c.toNat ≤ 0x44F)) ||
  c.isDigit || c == '+' || pyIsSpace c

/-- Tail matcher for `\s+([a-zа-я0-9+\s]+)`: since whitespace belongs to
the class, the greedy whitespace run backtracks one character when the
class run after it would be empty. -/
def matchHotkeyCombo (s : List Char) : Option (List Char) :=
  match s with
  | [] => none
  | c :: _ =>
    if pyIsSpace c then
      let w := s.takeWhile pyIsSpace
      let r := s.dropWhile pyIsSpace
      if (r.headD ' ' |> hotkeyClass) && !r.isEmpty then
        some (r.takeWhile hotkeyClass)
      else if 2 ≤ w.length then
        some ((s.drop (w.length - 1)).takeWhile hotkeyClass)
      else none
    else none

/-- Group search for `натисн(и|ути)\s+([a-zа-я0-9+\s]+)`
(`_handle_hotkey`, third branch). -/
def searchHotkey (l : List Char) : Option (List Char) :=
  scanOpt (fun s =>
    let kw := "натисн".data
    if kw.isPrefixOf s then
      let rest := s.drop kw.length
      match (if "и".data.isPrefixOf rest then matchHotkeyCombo (rest.drop 1) else none) with
      | some g => some g
      | none =>
        if "ути".data.isPrefixOf rest then matchHotkeyCombo (rest.drop 3) else none
    else none) l

/-- Tail matcher for `\s+(\d+)%`: one maximal whitespace run, a maximal
nonempty ASCII digit run, then a literal percent sign. -/
def wsDigitsPct (s : List Char) : Option Nat :=
  match s with
  | [] => none
  | c :: _ =>
    if pyIsSpace c then
      let r := s.dropWhile pyIsSpace
      let ds := r.takeWhile Char.isDigit
      if ds.isEmpty then none
      else if (r.drop ds.length).headD ' ' == '%' then some (digitsToNat ds)
      else none
    else none

/-- Group search for `(гучніше|тихіше)\s+на\s+(\d+)%`
(`_handle_audio_control`): returns the direction word and the amount. -/
def searchVolume (l : List Char) : Option (String × Nat) :=
  scanOpt (fun s =>
    let try1 := fun (kw : String) =>
      if kw.data.isPrefixOf s then
        match wsLitRest "на".data (s.drop kw.data.length) with
        | some rest =>
          match wsDigitsPct rest with
          | some n => some (kw, n)
          | none => none
        | none => none
      else none
    match try1 "гучніше" with
    | some g => some g
    | none => try1 "тихіше") l

/-- Group search for `відкрий папку\s+(.+)` (`_handle_open_folder`). -/
def searchOpenFolder (l : List Char) : Option (List Char) :=
  scanOpt (fun s =>
    let kw := "відкрий папку".data
    if kw.isPrefixOf s then matchSpacePlus (s.drop kw.length) else none) l

/-- Group search for `знайди файл\s+(.+)` (`_handle_file_search`). -/
def searchFileQuery (l : List Char) : Option (List Char) :=
  scanOpt (fun s =>
    let kw := "знайди файл".data
    if kw.isPrefixOf s then matchSpacePlus (s.drop kw.length) else none) l

/-- Tail matcher for `\s+(\d+)\s+дні`: whitespace, a maximal nonempty
digit run, whitespace, then the literal. -/
def wsDaysTail (s : List Char) : Option Nat :=
  match s with
  | [] => none
  | c :: _ =>
    if pyIsSpace c then
      let r := s.dropWhile pyIsSpace
      let ds := r.takeWhile Char.isDigit
      if ds.isEmpty then none
      else if wsThenLit "дні".data (r.drop ds.length) then some (digitsToNat ds)
      else none
    else none

/-- Group search for `покажи файли за останні\s+(\d+)\s+дні`
(`_handle_file_list`, third branch). -/
def searchLastDays (l : List Char) : Option Nat :=
  scanOpt (fun s =>
    let kw := "покажи файли за останні".data
    if kw.isPrefixOf s then wsDaysTail (s.drop kw.length) else none) l

/-- Group search for `створи папку\s+(.+)\s+тут` (`_handle_mkdir_here`):
the leading whitespace quantifier and the greedy middle group both
backtrack until the trailing `\s+тут` fits. -/
def searchMkdir (l : List Char) : Option (List Char) :=
  scanOpt (fun s0 =>
    let kw := "створи папку".data
    if kw.isPrefixOf s0 then
      let s := s0.drop kw.length
      match s with
      | [] => none
      | c :: _ =>
        if pyIsSpace c then
          let wlen := (s.takeWhile pyIsSpace).length
          List.findSome? (fun k =>
            if 1 ≤ k ∧ s.getD k '\n' ≠ '\n' then
              let run := (s.drop k).takeWhile (fun d => d ≠ '\n')
              List.findSome? (fun p =>
                if 1 ≤ p ∧ wsThenLit "тут".data (s.drop (k + p)) then
                  some (run.take p)
                else none)
                ((List.range (run.length + 1)).reverse)
            else none)
            ((List.range (wlen + 1)).reverse)
        else none
    else none) l

/-- Group search for `встав(ити|и) текст:?\s+(.+)` (`_handle_text_input`):
the alternation tries `ити` first, then `и`; the optional colon is consumed
when present. -/
def searchTextInsert (l : List Char) : Option (List Char) :=
  scanOpt (fun s =>
    let kw := "встав".data
    if kw.isPrefixOf s then
      let rest := s.drop kw.length
      let afterLit := fun (m : List Char) =>
        if " текст".data.isPrefixOf m then
          let m2 := m.drop 6
          if m2.headD ' ' == ':' then matchSpacePlus (m2.drop 1)
          else matchSpacePlus m2
        else none
      match (if "ити".data.isPrefixOf rest then afterLit (rest.drop 3) else none) with
      | some g => some g
      | none => if "и".data.isPrefixOf rest then afterLit (rest.drop 1) else none
    else none) l

/-- Group search for `(пошук|знайди)\s+(в інтернеті:|в інтернеті|:)\s*(.+)`
(`_handle_web_search`): the middle alternatives are tried in order and each
falls through to the next when its `\s*(.+)` continuation fails. -/
def searchWebQuery (l : List Char) : Option (List Char) :=
  scanOpt (fun s =>
    let afterKw := fun (rest : List Char) =>
      match rest with
      | [] => none
      | c :: _ =>
        if pyIsSpace c then
          let r := rest.dropWhile pyIsSpace
          match (if "в інтернеті:".data.isPrefixOf r then
                   matchSpaceStar (r.drop 12) else none) with
          | some g => some g
          | none =>
            match (if "в інтернеті".data.isPrefixOf r then
                     matchSpaceStar (r.drop 11) else none) with
            | some g => some g
            | none =>
              if r.headD ' ' == ':' then matchSpaceStar (r.drop 1) else none
        else none
    if "пошук".data.isPrefixOf s then afterKw (s.drop 5)
    else if "знайди".data.isPrefixOf s then afterKw (s.drop 6)
    else none) l

/-- Group search for `увімкн(и|ути) режим\s+(.+)` (`_handle_run_macro`). -/
def searchMacroMode (l : List Char) : Option (List Char) :=
  scanOpt (fun s =>
    let kw := "увімкн".data
    if kw.isPrefixOf s then
      let rest := s.drop kw.length
      let afterLit := fun (m : List Char) =>
        if " режим".data.isPrefixOf m then matchSpacePlus (m.drop 6) else none
      match (if "и".data.isPrefixOf rest then afterLit (rest.drop 1) else none) with
      | some g => some g
      | none => if "ути".data.isPrefixOf rest then afterLit (rest.drop 3) else none
    else none) l

/-- Group search for `поясни\s+(.+)` (`_handle_llm_query`, first pattern). -/
def searchExplain (l : List Char) : Option (List Char) :=
  scanOpt (fun s =>
    let kw := "поясни".data
    if kw.isPrefixOf s then matchSpacePlus (s.drop kw.length) else none) l

/-- Group search for `що таке\s+(.+)` (`_handle_llm_query`, second pattern). -/
def searchWhatIs (l : List Char) : Option (List Char) :=
  scanOpt (fun s =>
    let kw := "що таке".data
    if kw.isPrefixOf s then matchSpacePlus (s.drop kw.length) else none) l

/-- Group search for `розкажи\s+про\s+(.+)` (`_handle_llm_query`, third
pattern). -/
def searchTellAbout (l : List Char) : Option (List Char) :=
  scanOpt (fun s =>
    let kw := "розкажи".data
    if kw.isPrefixOf s then
      match wsLitRest "про".data (s.drop kw.length) with
      | some rest => matchSpacePlus rest
      | none => none
    else none) l

/-- Group search for `видали файл\s+(.+)` (`_handle_critical`). -/
def searchDeleteFile (l : List Char) : Option (List Char) :=
  scanOpt (fun s =>
    let kw := "видали файл".data
    if kw.isPrefixOf s then matchSpacePlus (s.drop kw.length) else none) l

/-- Launch-application handler (`_handle_run_app`): resolve the spoken name
through the alias table, then against the app list. -/
def handle_run_app (t : String) (p : Payload) : Option IntentResult :=
  match searchRunApp t.data with
  | none => none
  | some g =>
    let spoken := pyStrip (String.mk g)
    let target_name := (match_alias p.aliases spoken).getD spoken
    match resolve_dict p.apps target_name with
    | none =>
      some ⟨{ intent_response "none" [] with
              need_more_info := "Не знайшла додаток. Уточніть назву." },
            0.4, [("app", PyVal.vStr spoken)], "Не знайшла такого додатка.", []⟩
    | some app =>
      let appName := app.name.getD target_name
      some ⟨intent_response "run_app"
              [("app", PyVal.vStr appName), ("path", app.path)],
            0.85, [("app", PyVal.vStr appName)],
            "Запускаю " ++ appName ++ ".",
            [("app_id", app.id), ("spoken", PyVal.vStr spoken)]⟩

/-- Window-focus handler (`_handle_focus_window`). -/
def handle_focus_window (t : String) (p : Payload) : Option IntentResult :=
  match searchFocusWindow t.data with
  | none => none
  | some g =>
    let spoken := pyStrip (String.mk g)
    match resolve_dict p.windows spoken with
    | none =>
      some ⟨{ intent_response "none" [] with
              need_more_info := "Не знайшла вікно. Уточніть назву." },
            0.4, [("window", PyVal.vStr spoken)], "Не знайшла такого вікна.", []⟩
    | some w =>
      let wName := w.name.getD spoken
      some ⟨intent_response "focus_window"
              [("window", PyVal.vStr wName), ("id", w.id)],
            0.8, [("window", PyVal.vStr wName)],
            "Перемикаюся на " ++ wName ++ ".",
            [("window_id", w.id), ("spoken", PyVal.vStr spoken)]⟩

/-- Hotkey handler (`_handle_hotkey`): two fixed phrases, then the generic
key-combination pattern whose parsed key list may turn out empty. -/
def handle_hotkey (t : String) (_p : Payload) : Option IntentResult :=
  if hasSub "закрий вікно".data t.data then
    some ⟨intent_response "hotkey"
            [("keys", PyVal.vList [PyVal.vStr "alt", PyVal.vStr "f4"])],
          0.9, [("keys", PyVal.vStr "Alt+F4")], "Закриваю активне вікно.", []⟩
  else if hasSub "згорни всі вікна".data t.data || hasSub "робочий стіл".data t.data then
    some ⟨intent_response "hotkey"
            [("keys", PyVal.vList [PyVal.vStr "win", PyVal.vStr "d"])],
          0.9, [("keys", PyVal.vStr "Win+D")], "Показую робочий стіл.", []⟩
  else
    match searchHotkey t.data with
    | none => none
    | some combo =>
      let keys := (pySplitChars (fun c => c == '+' || c == ' ') combo).filterMap
        (fun k =>
          let ks := String.mk (dropTrailSpace (k.dropWhile pyIsSpace))
          if ks = "" then none else some (pyLower ks))
      if keys.isEmpty then none
      else
        some ⟨intent_response "hotkey" [("keys", PyVal.vList (keys.map PyVal.vStr))],
              0.7, [("keys", PyVal.vStr (String.intercalate "+" (keys.map pyTitle)))],
              "Натискаю комбінацію клавіш.", []⟩

/-- Audio-control handler (`_handle_audio_control`). -/
def handle_audio_control (t : String) (_p : Payload) : Option IntentResult :=
  if hasSub "вимкни звук".data t.data || hasSub "без звуку".data t.data then
    some ⟨intent_response "audio_control" [("operation", PyVal.vStr "mute")],
          0.9, [], "Вимикаю звук.", []⟩
  else
    match searchVolume t.data with
    | none => none
    | some (direction, value) =>
      some ⟨intent_response "audio_control"
              [("operation",
                PyVal.vStr (if direction = "гучніше" then "volume_up" else "volume_down")),
               ("amount", PyVal.vInt value)],
            0.85,
            [("amount", PyVal.vInt value), ("direction", PyVal.vStr direction)],
            "Регулюю гучність на " ++ toString value ++ "%", []⟩

/-- The ordered toggle table of `_handle_system_toggle`. -/
def toggleTable : List (String × String) :=
  [("wi-fi", "wifi"), ("вайфай", "wifi"), ("bluetooth", "bluetooth"),
   ("режим польоту", "airplane_mode")]

/-- Iterate the toggle table in order, as the source's `for` loop does. -/
def toggleScan (t : List Char) : List (String × String) → Option (String × String × String)
  | [] => none
  | (phrase, feature) :: rest =>
    if hasSub ("увімкни " ++ phrase).data t then some (phrase, feature, "on")
    else if hasSub ("вимкни " ++ phrase).data t then some (phrase, feature, "off")
    else toggleScan t rest

/-- System feature toggle handler (`_handle_system_toggle`). -/
def handle_system_toggle (t : String) (_p : Payload) : Option IntentResult :=
  match toggleScan t.data toggleTable with
  | none => none
  | some (phrase, feature, st) =>
    some ⟨intent_response "system_toggle"
            [("feature", PyVal.vStr feature), ("state", PyVal.vStr st)],
          0.85,
          [("feature", PyVal.vStr feature), ("state", PyVal.vStr st)],
          "Перемикаю " ++ phrase ++ ".", []⟩

/-- Folder-opening handler (`_handle_open_folder`). -/
def handle_open_folder (t : String) (p : Payload) : Option IntentResult :=
  match searchOpenFolder t.data with
  | none => none
  | some g =>
    let spoken := pyStrip (String.mk g)
    match resolve_dict p.folders spoken with
    | none =>
      some ⟨{ intent_response "none" [] with
              need_more_info := "Не знайшла папку. Уточніть назву." },
            0.4, [("folder", PyVal.vStr spoken)], "Не знайшла таку папку.", []⟩
    | some folder =>
      let fName := folder.name.getD spoken
      some ⟨intent_response "open_folder"
              [("path", folder.path), ("name", PyVal.vStr fName)],
            0.8, [("folder", PyVal.vStr fName)],
            "Відкриваю папку " ++ fName ++ ".",
            [("folder_path", folder.path), ("spoken", PyVal.vStr spoken)]⟩

/-- File-search handler (`_handle_file_search`). -/
def handle_file_search (t : String) (_p : Payload) : Option IntentResult :=
  match searchFileQuery t.data with
  | none => none
  | some g =>
    let query := pyStrip (String.mk g)
    some ⟨intent_response "file_search" [("query", PyVal.vStr query)],
          0.75, [("query", PyVal.vStr query)],
          "Шукаю файли за запитом " ++ query ++ ".", []⟩

/-- File-listing handler (`_handle_file_list`). -/
def handle_file_list (t : String) (_p : Payload) : Option IntentResult :=
  if hasSub "покажи файли за сьогодні".data t.data then
    some ⟨intent_response "file_list" [("time_filter", PyVal.vStr "today")],
          0.7, [("time_filter", PyVal.vStr "today")],
          "Показую відповідні файли.", []⟩
  else if hasSub "покажи файли за вчора".data t.data then
    some ⟨intent_response "file_list" [("time_filter", PyVal.vStr "yesterday")],
          0.7, [("time_filter", PyVal.vStr "yesterday")],
          "Показую відповідні файли.", []⟩
  else
    match searchLastDays t.data with
    | none => none
    | some n =>
      let params := [("time_filter", PyVal.vStr "last_n_days"), ("days", PyVal.vInt n)]
      some ⟨intent_response "file_list" params, 0.7, params,
            "Показую відповідні файли.", []⟩

/-- Folder-creation handler (`_handle_mkdir_here`). -/
def handle_mkdir_here (t : String) (_p : Payload) : Option IntentResult :=
  match searchMkdir t.data with
  | none => none
  | some g =>
    let folder_name := pyStrip (String.mk g)
    some ⟨intent_response "mkdir_here" [("name", PyVal.vStr folder_name)],
          0.75, [("folder", PyVal.vStr folder_name)],
          "Створюю папку " ++ folder_name ++ ".", []⟩

/-- Recent-file handler (`_handle_open_recent`). -/
def handle_open_recent (t : String) (_p : Payload) : Option IntentResult :=
  if hasSub "відкрий останній файл".data t.data then
    some ⟨intent_response "open_recent" [], 0.7, [], "Відкриваю останній файл.", []⟩
  else none

/-- Text-insertion handler (`_handle_text_input`). -/
def handle_text_input (t : String) (_p : Payload) : Option IntentResult :=
  match searchTextInsert t.data with
  | none => none
  | some g =>
    let text := pyStrip (String.mk g)
    some ⟨intent_response "text_input" [("text", PyVal.vStr text)],
          0.75, [("text", PyVal.vStr text)], "Вставляю текст.", []⟩

/-- Web-search handler (`_handle_web_search`): the explicit pattern first,
then the bare `пошук ` transcript head as a fallback. -/
def handle_web_search (t : String) (p : Payload) : Option IntentResult :=
  let mkRes := fun (query : String) =>
    let engine := p.default_search_engine.getD "google"
    some ⟨intent_response "web_search"
            [("engine", PyVal.vStr engine), ("query", PyVal.vStr query)],
          0.8, [("query", PyVal.vStr query)], "Запускаю пошук.", []⟩
  match searchWebQuery t.data with
  | some g => mkRes (pyStrip (String.mk g))
  | none =>
    if "пошук ".data.isPrefixOf t.data then
      mkRes (pyStrip (String.mk (t.data.drop 6)))
    else none

/-- Result-set summary text builder (`_summarize_result_set`). -/
def summarize_result_set (rs : List ResultItem) : String :=
  let top_items := (rs.take 3).filterMap (fun item =>
    let tl := if truthyStr item.title then item.title else item.name
    match tl with
    | some title =>
      if title = "" then none
      else
        let sm := if truthyStr item.snippet then item.snippet else item.summary
        match sm with
        | some s => if s = "" then some title else some (title ++ ": " ++ s)
        | none => some title
    | none => none)
  if top_items.isEmpty then "Результати без опису."
  else String.intercalate "; " top_items

/-- Spoken-results handler (`_handle_speak_results`). -/
def handle_speak_results (t : String) (p : Payload) : Option IntentResult :=
  if hasSub "озвуч результати".data t.data || hasSub "прочитай результати".data t.data then
    if p.result_set.isEmpty then
      some ⟨{ intent_response "none" [] with
              need_more_info := "Немає результатів для озвучення." },
            0.4, [], "Результати недоступні.", []⟩
    else
      let snippet := summarize_result_set p.result_set
      some ⟨{ intent_response "speak_results" [("source", PyVal.vStr "result_set")] with
              tts := { say := snippet, display := "" } },
            0.8, [("items", PyVal.vInt p.result_set.length)], snippet, []⟩
  else none

/-- Named-macro handler (`_handle_run_macro`). -/
def handle_macro_mode (t : String) (p : Payload) : Option IntentResult :=
  match searchMacroMode t.data with
  | none => none
  | some g =>
    let spoken := pyStrip (String.mk g)
    match resolve_dict p.macros spoken with
    | none =>
      some ⟨{ intent_response "none" [] with
              need_more_info := "Не знайшла макрос. Уточніть назву." },
            0.4, [("macro", PyVal.vStr spoken)], "Не знайшла такий режим.", []⟩
    | some m =>
      let mName := m.name.getD spoken
      some ⟨intent_response "run_macro"
              [("macro_id", m.id), ("name", PyVal.vStr mName)],
            0.8, [("macro", PyVal.vStr mName)],
            "Активую режим " ++ mName ++ ".",
            [("macro_id", m.id), ("spoken", PyVal.vStr spoken)]⟩

/-- Summarisation handler (`_handle_llm_summarize`). -/
def handle_llm_summarize (t : String) (p : Payload) : Option IntentResult :=
  if hasSub "узагальни".data t.data || hasSub "підсумуй".data t.data then
    if p.result_set.isEmpty then
      some ⟨{ intent_response "none" [] with
              need_more_info := "Немає результатів для узагальнення." },
            0.4, [], "Потрібні результати пошуку.", []⟩
    else
      some ⟨intent_response "llm_summarize"
              [("source", PyVal.vStr "web_search"),
               ("max_sentences", PyVal.vInt 3),
               ("style", PyVal.vStr "concise_voice_output"),
               ("context_keys", PyVal.vList [PyVal.vStr "result_set"])],
            0.8, [], "Передаю результати для узагальнення.",
            [("llm_context", PyVal.vStr "result_set")]⟩
  else none

/-- Open-question handler (`_handle_llm_query`): three patterns tried in
order, forwarding a constructed prompt. -/
def handle_llm_query (t : String) (_p : Payload) : Option IntentResult :=
  let mkRes := fun (g : List Char) =>
    let topic := pyStrip (String.mk g)
    some ⟨intent_response "llm_query"
            [("prompt", PyVal.vStr
              ("Стисло та зрозуміло поясни наступне українською мовою. " ++
               "Не вигадуй фактів і дотримуйся тону для голосового озвучення.\n" ++
               "Тема: " ++ topic))],
          0.75, [("topic", PyVal.vStr topic)],
          "Запитую пояснення у мовної моделі.",
          [("topic", PyVal.vStr topic)]⟩
  match searchExplain t.data with
  | some g => mkRes g
  | none =>
    match searchWhatIs t.data with
    | some g => mkRes g
    | none =>
      match searchTellAbout t.data with
      | some g => mkRes g
      | none => none

/-- Critical-operation detection (`_handle_critical`): returns the intent
tag, the confirmation phrase and the params mapping. -/
def handle_critical (t : String) : Option (String × String × List (String × PyVal)) :=
  if hasSub "вимкни комп'ютер".data t.data then
    some ("shutdown", "Вимкнути комп'ютер?", [("operation", PyVal.vStr "shutdown")])
  else if hasSub "перезавантаж".data t.data then
    some ("restart", "Перезавантажити комп'ютер?", [("operation", PyVal.vStr "restart")])
  else if hasSub "видали файл".data t.data then
    match searchDeleteFile t.data with
    | some g =>
      let filename := pyStrip (String.mk g)
      some ("delete_file", "Видалити файл " ++ filename ++ "?",
            [("file", PyVal.vStr filename)])
    | none => none
  else none

/-- Critical precheck wrapper (`_handle_critical_wrapper`): force a
confirmation response with the detected operation's params. -/
def handle_critical_wrapper (t : String) : Option IntentResult :=
  match handle_critical t with
  | none => none
  | some (intent, phrase, params) =>
    some ⟨{ intent_response "none" params with
            confirmation := { required := true, phrase := phrase } },
          0.8, params, "Потрібне підтвердження.",
          [("critical_intent", PyVal.vStr intent)]⟩

/-- The ordered intent-handler table of `process_request`. -/
def intent_handlers : List (String × (String → Payload → Option IntentResult)) :=
  [("run_app", handle_run_app),
   ("focus_window", handle_focus_window),
   ("hotkey", handle_hotkey),
   ("audio_control", handle_audio_control),
   ("system_toggle", handle_system_toggle),
   ("open_folder", handle_open_folder),
   ("file_search", handle_file_search),
   ("file_list", handle_file_list),
   ("mkdir_here", handle_mkdir_here),
   ("open_recent", handle_open_recent),
   ("text_input", handle_text_input),
   ("web_search", handle_web_search),
   ("speak_results", handle_speak_results),
   ("run_macro", handle_macro_mode),
   ("llm_summarize", handle_llm_summarize),
   ("llm_query", handle_llm_query)]

/-- First matching handler with its intent tag (the source's `for` loop
over `intent_handlers`). -/
def firstIntent (t : String) (p : Payload) : Option (String × IntentResult) :=
  intent_handlers.findSome? (fun nh => (nh.2 t p).map (fun r => (nh.1, r)))

/-- The effective `tts_max_chars` value: `None` when the whole policies
mapping is empty/falsy, otherwise the optional integer entry. -/
def eff_tts_max (p : Payload) : Option Int :=
  if p.policies.isEmpty && p.tts_max_chars.isNone then none else p.tts_max_chars

/-- The normalized transcript: stripped then lowercased. -/
def norm_t (p : Payload) : String :=
  pyLower (pyStrip p.transcript)

/-- Final response assembly for the winning intent handler: copy the
handler's response fragment, fill the log, evaluate and record policy
gates, and either deny (forcing `action="none"`, clearing params and
appending the deny code) or attach the handler's spoken text. -/
def finishIntent (p : Payload) (ttsMax : Option Int) (intent : String)
    (r : IntentResult) : Response :=
  let resp := r.response
  let log1 := { resp.log with
    intent_detected := intent, confidence := r.confidence, slots := r.slots,
    resolution := if r.resolution.isEmpty then resp.log.resolution else r.resolution }
  let gates := policy_gate_checks resp.action p.policies
  let log2 := { log1 with
    policy_checks := gates.map (fun g =>
      ⟨g.name, if g.allowed then "granted" else "denied"⟩) }
  match gates.find? (fun g => !g.allowed) with
  | some g =>
    { resp with
      action := "none", params := [],
      log := { log2 with
        errors := log2.errors ++ [g.deny_action],
        resolution := [("denied_policy", PyVal.vStr g.name)] },
      tts := { resp.tts with
        say := apply_tts_limit "Цю дію заборонено політиками." ttsMax } }
  | none =>
    { resp with
      log := log2,
      tts := { resp.tts with
        say := apply_tts_limit (if r.tts = "" then resp.tts.say else r.tts) ttsMax } }

/-- Final response assembly for a fired critical precheck: no policy gates
are computed. -/
def finishCritical (ttsMax : Option Int) (r : IntentResult) : Response :=
  let resp := r.response
  { resp with
    log := { resp.log with
      intent_detected := "critical", confidence := r.confidence, slots := r.slots,
      resolution := if r.resolution.isEmpty then resp.log.resolution else r.resolution },
    tts := { resp.tts with say := apply_tts_limit r.tts ttsMax } }

/-- The idle response returned for non-activated requests. -/
def idle_response (ttsMax : Option Int) : Response :=
  { action := "none",
    tts := { say := apply_tts_limit
               "Активуйте мене кодовою фразою, щоб виконати команду." ttsMax,
             display := "" },
    log := { intent_detected := "idle", confidence := 1 } }

/-- The LLM-summary short-circuit response. -/
def summary_response (ttsMax : Option Int) (summary : String) : Response :=
  { action := "speak_results",
    params := [("source", PyVal.vStr "llm_summary")],
    tts := { say := apply_tts_limit summary ttsMax, display := "" },
    log := { intent_detected := "speak_results", confidence := 1,
             resolution := [("source", PyVal.vStr "llm_summary")] } }

/-- The empty-transcript response. -/
def missing_response : Response :=
  { need_more_info := "Потрібна голосова команда.",
    log := { intent_detected := "missing_transcript", confidence := 0.1 } }

/-- The unknown-intent fallback response. -/
def unknown_response (ttsMax : Option Int) : Response :=
  { tts := { say := apply_tts_limit
               "Не розпізнала команду. Спробуйте інакше сформулювати запит." ttsMax,
             display := "" },
    log := { intent_detected := "unknown", confidence := 0.2,
             errors := ["intent_not_found"] } }

/-- The top-level orchestrator `process_request`: state check, LLM-summary
short-circuit, critical precheck, empty-transcript check, ordered intent
matching with policy gating, and the unknown-intent fallback. -/
def process_request (p : Payload) : Response :=
  let ttsMax := eff_tts_max p
  let transcript := pyStrip p.transcript
  if p.state ≠ "activated" then idle_response ttsMax
  else if truthyStr p.llm_summary ∧ transcript = "" then
    summary_response ttsMax (p.llm_summary.getD "")
  else
    match handle_critical_wrapper (norm_t p) with
    | some r => finishCritical ttsMax r
    | none =>
      if transcript = "" then missing_response
      else
        match firstIntent (norm_t p) p with
        | some (nm, r) => finishIntent p ttsMax nm r
        | none => unknown_response ttsMax

/-- Default handler-table entry used to state positional hypotheses. -/
def dummyHandler : String × (String → Payload → Option IntentResult) :=
  ("", fun _ _ => none)

theorem length_dropWhile_le {α : Type} (p : α → Bool) (l : List α) :
    (l.dropWhile p).length ≤ l.length := by
  induction l with
  | nil => simp
  | cons a as ih =>
    rw [List.dropWhile_cons]
    split
    · simpa using Nat.le_succ_of_le ih
    · simp

theorem dropTrailSpace_length_le (l : List Char) :
    (dropTrailSpace l).length ≤ l.length := by
  unfold dropTrailSpace
  simpa using length_dropWhile_le pyIsSpace l.reverse

theorem findSome_eq_of_getD {α β : Type} (l : List α) (f : α → Option β) (d : α)
    (i : Nat) (b : β) (hi : i < l.length)
    (h1 : ∀ k, k < i → f (l.getD k d) = none)
    (h2 : f (l.getD i d) = some b) :
    l.findSome? f = some b := by
  induction l generalizing i with
  | nil => simp at hi
  | cons a as ih =>
    cases i with
    | zero =>
      simp only [List.getD_cons_zero] at h2
      simp [List.findSome?_cons, h2]
    | succ n =>
      have h0 : f a = none := by simpa using h1 0 (Nat.succ_pos n)
      simp only [List.findSome?_cons, h0]
      exact ih n (by simpa using hi)
        (fun k hk => by simpa using h1 (k + 1) (Nat.succ_lt_succ hk))
        (by simpa using h2)

theorem findSome_ok {α β : Type} {P : β → Prop} (l : List α) (f : α → Option β)
    (h : ∀ a ∈ l, ∀ b, f a = some b → P b) :
    ∀ b, l.findSome? f = some b → P b := by
  induction l with
  | nil => intro b hb; simp [List.findSome?] at hb
  | cons a as ih =>
    intro b hb
    cases hfa : f a with
    | some c =>
      have : c = b := by simpa [List.findSome?_cons, hfa] using hb
      exact this ▸ h a (List.mem_cons_self a as) c hfa
    | none =>
      exact ih (fun x hx => h x (List.mem_cons_of_mem a hx)) b
        (by simpa [List.findSome?_cons, hfa] using hb)

theorem firstIntent_eq_of_getD (t : String) (p : Payload) (i : Nat) (r : IntentResult)
    (hi : i < intent_handlers.length)
    (h1 : ∀ k, k < i → (intent_handlers.getD k dummyHandler).2 t p = none)
    (h2 : (intent_handlers.getD i dummyHandler).2 t p = some r) :
    firstIntent t p = some ((intent_handlers.getD i dummyHandler).1, r) := by
  unfold firstIntent
  exact findSome_eq_of_getD intent_handlers _ dummyHandler i _ hi
    (fun k hk => by rw [h1 k hk]; rfl) (by rw [h2]; rfl)

theorem eff_tts_max_policies (p : Payload) (q : List (String × Bool)) :
    eff_tts_max { p with policies := q } = eff_tts_max p := by
  unfold eff_tts_max
  cases htm : p.tts_max_chars with
  | none => simp [htm]
  | some v => simp [htm]

theorem critical_transcript_ne (p : Payload) (r : IntentResult)
    (hc : handle_critical_wrapper (norm_t p) = some r) :
    pyStrip p.transcript ≠ "" := by
  intro h0
  have hn : norm_t p = "" := by
    unfold norm_t
    rw [h0]
    rfl
  rw [hn, show handle_critical_wrapper "" = none from rfl] at hc
  cases hc

theorem process_request_critical (p : Payload) (r : IntentResult)
    (hstate : p.state = "activated")
    (hc : handle_critical_wrapper (norm_t p) = some r) :
    process_request p = finishCritical (eff_tts_max p) r := by
  have hne := critical_transcript_ne p r hc
  simp only [process_request]
  rw [if_neg (fun h => h hstate), if_neg (fun h => hne h.2), hc]

theorem process_request_intent (p : Payload) (nm : String) (r : IntentResult)
    (hstate : p.state = "activated")
    (hcrit : handle_critical_wrapper (norm_t p) = none)
    (hne : pyStrip p.transcript ≠ "")
    (hfi : firstIntent (norm_t p) p = some (nm, r)) :
    process_request p = finishIntent p (eff_tts_max p) nm r := by
  simp only [process_request]
  rw [if_neg (fun h => h hstate), if_neg (fun h => hne h.2), hcrit]
  simp only []
  rw [if_neg hne, hfi]

theorem process_request_summary (p : Payload)
    (hstate : p.state = "activated")
    (hll : truthyStr p.llm_summary = true)
    (ht : pyStrip p.transcript = "") :
    process_request p = summary_response (eff_tts_max p) (p.llm_summary.getD "") := by
  simp only [process_request]
  rw [if_neg (fun h => h hstate), if_pos ⟨hll, ht⟩]

theorem critical_wrapper_shape (t : String) (r : IntentResult)
    (h : handle_critical_wrapper t = some r) :
    ∃ intent phrase params, handle_critical t = some (intent, phrase, params) ∧
      r = ⟨{ intent_response "none" params with
             confirmation := { required := true, phrase := phrase } },
           0.8, params, "Потрібне підтвердження.",
           [("critical_intent", PyVal.vStr intent)]⟩ := by
  unfold handle_critical_wrapper at h
  cases hc : handle_critical t with
  | none => rw [hc] at h; cases h
  | some trip =>
    obtain ⟨intent, phrase, params⟩ := trip
    rw [hc] at h
    injection h with e
    exact ⟨intent, phrase, params, rfl, e.symm⟩

theorem critical_params_shape (t : String) (intent phrase : String)
    (prm : List (String × PyVal))
    (h : handle_critical t = some (intent, phrase, prm)) :
    prm = [("operation", PyVal.vStr "shutdown")] ∨
    prm = [("operation", PyVal.vStr "restart")] ∨
    ∃ f, prm = [("file", PyVal.vStr f)] := by
  unfold handle_critical at h
  split at h
  · injection h with e; injection e with e1 e2; injection e2 with e3 e4
    exact Or.inl e4.symm
  · split at h
    · injection h with e; injection e with e1 e2; injection e2 with e3 e4
      exact Or.inr (Or.inl e4.symm)
    · split at h
      · split at h
        · injection h with e; injection e with e1 e2; injection e2 with e3 e4
          exact Or.inr (Or.inr ⟨_, e4.symm⟩)
        · cases h
      · cases h

/-- C1: for every activated request whose transcript fires the critical
precheck, the response demands confirmation with action "none", no policy
gate is evaluated (`policy_checks` empty, no "policy_violation" error), the
response is exactly the precheck's assembled confirmation response (intent
handlers are not consulted), and the whole response is identical under any
change of the boolean policy flags. -/
theorem C1_critical_never_gated (p : Payload) (r : IntentResult)
    (q1 q2 : List (String × Bool))
    (hstate : p.state = "activated")
    (hc : handle_critical_wrapper (norm_t p) = some r) :
    (process_request { p with policies := q1 }).confirmation.required = true ∧
    (process_request { p with policies := q1 }).action = "none" ∧
    (process_request { p with policies := q1 }).log.policy_checks = [] ∧
    "policy_violation" ∉ (process_request { p with policies := q1 }).log.errors ∧
    process_request { p with policies := q1 } = finishCritical (eff_tts_max p) r ∧
    process_request { p with policies := q1 } = process_request { p with policies := q2 } := by
  have e1 : process_request { p with policies := q1 } = finishCritical (eff_tts_max p) r := by
    rw [process_request_critical { p with policies := q1 } r hstate hc,
        eff_tts_max_policies]
  have e2 : process_request { p with policies := q2 } = finishCritical (eff_tts_max p) r := by
    rw [process_request_critical { p with policies := q2 } r hstate hc,
        eff_tts_max_policies]
  obtain ⟨intent, phrase, params, hcp, hr⟩ := critical_wrapper_shape _ _ hc
  subst hr
  refine ⟨?_, ?_, ?_, ?_, e1, e1.trans e2.symm⟩ <;>
    rw [e1] <;> simp [finishCritical, intent_response]

/-- C10: whenever the critical precheck fires, the confirmation response
carries the detected operation's params (one of the three shapes), the same
mapping in `log.slots`, the operation tag in `log.resolution.critical_intent`
and confidence 0.8, while `action` stays "none". -/
theorem C10_critical_details (p : Payload) (intent phrase : String)
    (prm : List (String × PyVal))
    (hstate : p.state = "activated")
    (hc : handle_critical (norm_t p) = some (intent, phrase, prm)) :
    (process_request p).action = "none" ∧
    (process_request p).params = prm ∧
    (process_request p).log.slots = prm ∧
    (process_request p).log.resolution = [("critical_intent", PyVal.vStr intent)] ∧
    (process_request p).log.confidence = 0.8 ∧
    (prm = [("operation", PyVal.vStr "shutdown")] ∨
     prm = [("operation", PyVal.vStr "restart")] ∨
     ∃ f, prm = [("file", PyVal.vStr f)]) := by
  have hw : handle_critical_wrapper (norm_t p) =
      some ⟨{ intent_response "none" prm with
              confirmation := { required := true, phrase := phrase } },
            0.8, prm, "Потрібне підтвердження.",
            [("critical_intent", PyVal.vStr intent)]⟩ := by
    unfold handle_critical_wrapper
    rw [hc]
  rw [process_request_critical p _ hstate hw]
  refine ⟨?_, ?_, ?_, ?_, ?_, critical_params_shape _ _ _ _ hc⟩ <;>
    simp [finishCritical, intent_response]

/-- C6: an activated request with a non-empty `llm_summary` and an empty
transcript short-circuits to the `speak_results` summary response: action
"speak_results", `params.source = "llm_summary"`, confidence 1, and
`tts.say` the summary text under the `tts_max_chars` limit. -/
theorem C6_llm_short_circuit (p : Payload) (s : String)
    (hstate : p.state = "activated")
    (hs : p.llm_summary = some s) (hne : s ≠ "")
    (ht : pyStrip p.transcript = "") :
    process_request p = summary_response (eff_tts_max p) s := by
  have hll : truthyStr p.llm_summary = true := by
    rw [hs]
    simpa [truthyStr] using hne
  have h := process_request_summary p hstate hll ht
  rw [hs] at h
  simpa using h

/-- C4 counterexample: with the supplied limit 0 and the two-character text
"ab", the formatter returns "a…" of length 2, exceeding the limit, so the
claim's bound "length ≤ L for every supplied integer limit L" fails. -/
theorem C4_cex :
    apply_tts_limit "ab" (some 0) = "a…" ∧
    ¬(((apply_tts_limit "ab" (some 0)).length : Int) ≤ 0) := by
  constructor
  · rfl
  · decide

/-- C4 (amended to positive limits): with no limit the text is returned
unchanged; for every limit L ≥ 1 the result length is at most L, a fitting
text is returned unchanged, and an over-long text becomes its first L−1
characters with trailing whitespace stripped plus one ellipsis character,
so the truncated result ends with the ellipsis marker. -/
theorem C4_tts_truncation (text : String) (L : Int) (hL : 1 ≤ L) :
    apply_tts_limit text none = text ∧
    ((apply_tts_limit text (some L)).length : Int) ≤ L ∧
    ((text.length : Int) ≤ L → apply_tts_limit text (some L) = text) ∧
    (¬ (text.length : Int) ≤ L →
      apply_tts_limit text (some L) =
        String.mk (dropTrailSpace (text.data.take (L - 1).toNat) ++ ['…']) ∧
      (apply_tts_limit text (some L)).data.getLast? = some '…') := by
  have h0 : (0 : Int) ≤ L - 1 := by omega
  have hslice : pySliceTo text.data (L - 1) = text.data.take (L - 1).toNat := by
    unfold pySliceTo
    rw [if_pos h0]
  have hred : apply_tts_limit text (some L) =
      if (text.length : Int) ≤ L then text
      else String.mk (dropTrailSpace (text.data.take (L - 1).toNat) ++ ['…']) := by
    show (if (text.length : Int) ≤ L then text
          else String.mk (dropTrailSpace (pySliceTo text.data (L - 1)) ++ ['…'])) = _
    rw [hslice]
  refine ⟨rfl, ?_, ?_, ?_⟩
  · rw [hred]
    split
    · next h => exact h
    · next h =>
      have hb := dropTrailSpace_length_le (text.data.take (L - 1).toNat)
      have hb2 : (text.data.take (L - 1).toNat).length ≤ (L - 1).toNat := by simp
      have hb3 := hb.trans hb2
      simp only [String.length, List.length_append, List.length_cons, List.length_nil]
      omega
  · intro h
    rw [hred, if_pos h]
  · intro h
    rw [hred, if_neg h]
    exact ⟨rfl, by simp⟩

/-- C4 witness: the amended truncation bound at a concrete text and limit. -/
theorem C4_tts_truncation_witness :
    (1 : Int) ≤ 7 ∧ ((apply_tts_limit "абвгд еєжз" (some 7)).length : Int) ≤ 7 :=
  ⟨by norm_num, (C4_tts_truncation "абвгд еєжз" 7 (by norm_num)).2.1⟩

/-- Concrete payload for the C1 witness. -/
def w1pay : Payload := { state := "activated", transcript := "Вимкни комп'ютер" }

/-- Concrete critical result for the C1 witness. -/
def w1res : IntentResult :=
  ⟨{ intent_response "none" [("operation", PyVal.vStr "shutdown")] with
     confirmation := { required := true, phrase := "Вимкнути комп'ютер?" } },
   0.8, [("operation", PyVal.vStr "shutdown")], "Потрібне підтвердження.",
   [("critical_intent", PyVal.vStr "shutdown")]⟩

/-- C1 witness: a shutdown transcript fires the precheck and the response is
identical whether or not `allow_run_apps` is granted. -/
theorem C1_witness :
    handle_critical_wrapper (norm_t w1pay) = some w1res ∧
    (process_request { w1pay with
        policies := [("allow_run_apps", true)] }).confirmation.required = true ∧
    process_request { w1pay with policies := [("allow_run_apps", true)] } =
      process_request { w1pay with policies := [] } := by
  have h : handle_critical_wrapper (norm_t w1pay) = some w1res := rfl
  obtain ⟨a, b, c, d, e, f⟩ :=
    C1_critical_never_gated w1pay w1res [("allow_run_apps", true)] [] rfl h
  exact ⟨h, a, f⟩

/-- Concrete payload for the C10 witness. -/
def w10pay : Payload := { state := "activated", transcript := "Видали файл звіт" }

/-- C10 witness: a delete-file transcript yields file params mirrored into
slots, the critical-intent resolution tag, and confidence 0.8. -/
theorem C10_witness :
    handle_critical (norm_t w10pay) =
      some ("delete_file", "Видалити файл звіт?", [("file", PyVal.vStr "звіт")]) ∧
    (process_request w10pay).params = [("file", PyVal.vStr "звіт")] ∧
    (process_request w10pay).log.slots = [("file", PyVal.vStr "звіт")] ∧
    (process_request w10pay).log.confidence = 0.8 := by
  have h : handle_critical (norm_t w10pay) =
      some ("delete_file", "Видалити файл звіт?", [("file", PyVal.vStr "звіт")]) := rfl
  obtain ⟨a, b, c, d, e, f⟩ :=
    C10_critical_details w10pay "delete_file" "Видалити файл звіт?"
      [("file", PyVal.vStr "звіт")] rfl h
  exact ⟨h, b, c, e⟩

/-- Concrete payload for the C6 witness. -/
def w6pay : Payload := { state := "activated", llm_summary := some "Готове резюме" }

/-- C6 witness: an empty transcript with a ready summary short-circuits to
the summary response. -/
theorem C6_witness :
    pyStrip w6pay.transcript = "" ∧
    process_request w6pay = summary_response (eff_tts_max w6pay) "Готове резюме" :=
  ⟨rfl, C6_llm_short_circuit w6pay "Готове резюме" rfl rfl (by decide) rfl⟩

/-- C2: when the winning intent handler's action has a policy gate mapped
and the required flag is false or absent, the final response has action
"none", empty params, and "policy_violation" among the logged errors,
overriding whatever the handler produced. -/
theorem C2_policy_deny (p : Payload) (i : Nat) (r : IntentResult) (g : String)
    (hstate : p.state = "activated")
    (hcrit : handle_critical_wrapper (norm_t p) = none)
    (hne : pyStrip p.transcript ≠ "")
    (hi : i < intent_handlers.length)
    (hearlier : ∀ k, k < i → (intent_handlers.getD k dummyHandler).2 (norm_t p) p = none)
    (hsome : (intent_handlers.getD i dummyHandler).2 (norm_t p) p = some r)
    (hgate : action_gate_policy r.response.action = some g)
    (hflag : lookup_flag p.policies g = false) :
    (process_request p).action = "none" ∧
    (process_request p).params = [] ∧
    "policy_violation" ∈ (process_request p).log.errors := by
  have hfi := firstIntent_eq_of_getD (norm_t p) p i r hi hearlier hsome
  rw [process_request_intent p _ r hstate hcrit hne hfi]
  have hg : policy_gate_checks r.response.action p.policies =
      [⟨g, false, "policy_violation"⟩] := by
    simp only [policy_gate_checks, hgate, hflag]
  simp only [finishIntent, hg]
  refine ⟨?_, ?_, ?_⟩ <;> simp [List.find?]

/-- C3: intent handlers are tried in the fixed order and the first handler
that recognizes the transcript determines the response; when a later
handler would also match, the response is still assembled from the earlier
handler's result (which includes its entity-not-found outcomes). -/
theorem C3_first_handler_wins (p : Payload) (i j : Nat) (ri rj : IntentResult)
    (hstate : p.state = "activated")
    (hcrit : handle_critical_wrapper (norm_t p) = none)
    (hne : pyStrip p.transcript ≠ "")
    (hij : i < j) (hj : j < intent_handlers.length)
    (hearlier : ∀ k, k < i → (intent_handlers.getD k dummyHandler).2 (norm_t p) p = none)
    (hi : (intent_handlers.getD i dummyHandler).2 (norm_t p) p = some ri)
    (_hjm : (intent_handlers.getD j dummyHandler).2 (norm_t p) p = some rj) :
    process_request p =
      finishIntent p (eff_tts_max p) (intent_handlers.getD i dummyHandler).1 ri :=
  process_request_intent p _ ri hstate hcrit hne
    (firstIntent_eq_of_getD _ p i ri (Nat.lt_trans hij hj) hearlier hi)

/-- Concrete payload for the C2 witness: dictation flag absent. -/
def w2pay : Payload := { state := "activated", transcript := "вставити текст: привіт" }

/-- Concrete text-input handler result for the C2 witness. -/
def w2res : IntentResult :=
  ⟨intent_response "text_input" [("text", PyVal.vStr "привіт")], 0.75,
   [("text", PyVal.vStr "привіт")], "Вставляю текст.", []⟩

/-- C2 witness: a dictation transcript with the flag absent is denied. -/
theorem C2_witness :
    (intent_handlers.getD 10 dummyHandler).2 (norm_t w2pay) w2pay = some w2res ∧
    lookup_flag w2pay.policies "dictation" = false ∧
    (process_request w2pay).action = "none" ∧
    (process_request w2pay).params = [] ∧
    "policy_violation" ∈ (process_request w2pay).log.errors := by
  have h10 : (intent_handlers.getD 10 dummyHandler).2 (norm_t w2pay) w2pay =
      some w2res := rfl
  have hfl : lookup_flag w2pay.policies "dictation" = false := rfl
  obtain ⟨a, b, c⟩ := C2_policy_deny w2pay 10 w2res "dictation" rfl rfl
    (by decide) (by decide)
    (fun k hk => by interval_cases k <;> rfl) h10 rfl hfl
  exact ⟨h10, hfl, a, b, c⟩

/-- Concrete payload for the C3 witness: the transcript satisfies both the
hotkey pattern and the audio-control pattern. -/
def w3pay : Payload := { state := "activated", transcript := "закрий вікно гучніше на 5%" }

/-- Hotkey result for the C3 witness. -/
def w3hot : IntentResult :=
  ⟨intent_response "hotkey" [("keys", PyVal.vList [PyVal.vStr "alt", PyVal.vStr "f4"])],
   0.9, [("keys", PyVal.vStr "Alt+F4")], "Закриваю активне вікно.", []⟩

/-- Audio result for the C3 witness. -/
def w3aud : IntentResult :=
  ⟨intent_response "audio_control"
     [("operation", PyVal.vStr "volume_up"), ("amount", PyVal.vInt 5)],
   0.85, [("amount", PyVal.vInt 5), ("direction", PyVal.vStr "гучніше")],
   "Регулюю гучність на 5%", []⟩

/-- C3 witness: with both the hotkey and audio patterns present, the
earlier hotkey handler determines the response. -/
theorem C3_witness :
    (intent_handlers.getD 2 dummyHandler).2 (norm_t w3pay) w3pay = some w3hot ∧
    (intent_handlers.getD 3 dummyHandler).2 (norm_t w3pay) w3pay = some w3aud ∧
    process_request w3pay = finishIntent w3pay (eff_tts_max w3pay) "hotkey" w3hot := by
  have h2 : (intent_handlers.getD 2 dummyHandler).2 (norm_t w3pay) w3pay =
      some w3hot := rfl
  have h3 : (intent_handlers.getD 3 dummyHandler).2 (norm_t w3pay) w3pay =
      some w3aud := rfl
  exact ⟨h2, h3,
    C3_first_handler_wins w3pay 2 3 w3hot w3aud rfl rfl (by decide)
      (by norm_num) (by decide)
      (fun k hk => by interval_cases k <;> rfl) h2 h3⟩

/-- C5: for every activated request whose transcript matches one of the
entity-consuming handlers' patterns (run_app, focus_window, open_folder,
run_macro) as the winning handler but whose target entity is absent from
the corresponding context list, a response is still returned with action
"none", confidence exactly 0.4, and a non-empty `need_more_info`. -/
theorem C5_entity_not_found (p : Payload)
    (hstate : p.state = "activated")
    (hcrit : handle_critical_wrapper (norm_t p) = none)
    (hne : pyStrip p.transcript ≠ "") :
    (∀ g, searchRunApp (norm_t p).data = some g →
      resolve_dict p.apps ((match_alias p.aliases (pyStrip (String.mk g))).getD
        (pyStrip (String.mk g))) = none →
      (process_request p).action = "none" ∧
      (process_request p).log.confidence = 0.4 ∧
      (process_request p).need_more_info ≠ "") ∧
    (∀ g, (∀ k, k < 1 → (intent_handlers.getD k dummyHandler).2 (norm_t p) p = none) →
      searchFocusWindow (norm_t p).data = some g →
      resolve_dict p.windows (pyStrip (String.mk g)) = none →
      (process_request p).action = "none" ∧
      (process_request p).log.confidence = 0.4 ∧
      (process_request p).need_more_info ≠ "") ∧
    (∀ g, (∀ k, k < 5 → (intent_handlers.getD k dummyHandler).2 (norm_t p) p = none) →
      searchOpenFolder (norm_t p).data = some g →
      resolve_dict p.folders (pyStrip (String.mk g)) = none →
      (process_request p).action = "none" ∧
      (process_request p).log.confidence = 0.4 ∧
      (process_request p).need_more_info ≠ "") ∧
    (∀ g, (∀ k, k < 13 → (intent_handlers.getD k dummyHandler).2 (norm_t p) p = none) →
      searchMacroMode (norm_t p).data = some g →
      resolve_dict p.macros (pyStrip (String.mk g)) = none →
      (process_request p).action = "none" ∧
      (process_request p).log.confidence = 0.4 ∧
      (process_request p).need_more_info ≠ "") := by
  refine ⟨?_, ?_, ?_, ?_⟩
  · intro g hsg hres
    have hh : handle_run_app (norm_t p) p = some
        ⟨{ intent_response "none" [] with
           need_more_info := "Не знайшла додаток. Уточніть назву." },
         0.4, [("app", PyVal.vStr (pyStrip (String.mk g)))],
         "Не знайшла такого додатка.", []⟩ := by
      simp only [handle_run_app, hsg, hres]
    have hfi := firstIntent_eq_of_getD (norm_t p) p 0 _ (by decide)
      (fun k hk => absurd hk (Nat.not_lt_zero k)) hh
    rw [process_request_intent p _ _ hstate hcrit hne hfi]
    refine ⟨rfl, rfl, ?_⟩
    show ("Не знайшла додаток. Уточніть назву." : String) ≠ ""
    decide
  · intro g hpre hsg hres
    have hh : handle_focus_window (norm_t p) p = some
        ⟨{ intent_response "none" [] with
           need_more_info := "Не знайшла вікно. Уточніть назву." },
         0.4, [("window", PyVal.vStr (pyStrip (String.mk g)))],
         "Не знайшла такого вікна.", []⟩ := by
      simp only [handle_focus_window, hsg, hres]
    have hfi := firstIntent_eq_of_getD (norm_t p) p 1 _ (by decide) hpre hh
    rw [process_request_intent p _ _ hstate hcrit hne hfi]
    refine ⟨rfl, rfl, ?_⟩
    show ("Не знайшла вікно. Уточніть назву." : String) ≠ ""
    decide
  · intro g hpre hsg hres
    have hh : handle_open_folder (norm_t p) p = some
        ⟨{ intent_response "none" [] with
           need_more_info := "Не знайшла папку. Уточніть назву." },
         0.4, [("folder", PyVal.vStr (pyStrip (String.mk g)))],
         "Не знайшла таку папку.", []⟩ := by
      simp only [handle_open_folder, hsg, hres]
    have hfi := firstIntent_eq_of_getD (norm_t p) p 5 _ (by decide) hpre hh
    rw [process_request_intent p _ _ hstate hcrit hne hfi]
    refine ⟨rfl, rfl, ?_⟩
    show ("Не знайшла папку. Уточніть назву." : String) ≠ ""
    decide
  · intro g hpre hsg hres
    have hh : handle_macro_mode (norm_t p) p = some
        ⟨{ intent_response "none" [] with
           need_more_info := "Не знайшла макрос. Уточніть назву." },
         0.4, [("macro", PyVal.vStr (pyStrip (String.mk g)))],
         "Не знайшла такий режим.", []⟩ := by
      simp only [handle_macro_mode, hsg, hres]
    have hfi := firstIntent_eq_of_getD (norm_t p) p 13 _ (by decide) hpre hh
    rw [process_request_intent p _ _ hstate hcrit hne hfi]
    refine ⟨rfl, rfl, ?_⟩
    show ("Не знайшла макрос. Уточніть назву." : String) ≠ ""
    decide

/-- Concrete payload for the C5 witness: run_app pattern with no app list. -/
def w5pay : Payload := { state := "activated", transcript := "запусти невідомий додаток" }

/-- C5 witness: an unresolvable app name yields confidence 0.4 and a
populated `need_more_info`. -/
theorem C5_witness :
    searchRunApp (norm_t w5pay).data = some "невідомий додаток".data ∧
    (process_request w5pay).action = "none" ∧
    (process_request w5pay).log.confidence = 0.4 ∧
    (process_request w5pay).need_more_info ≠ "" := by
  have hs : searchRunApp (norm_t w5pay).data = some "невідомий додаток".data := rfl
  have hr : resolve_dict w5pay.apps
      ((match_alias w5pay.aliases
        (pyStrip (String.mk "невідомий додаток".data))).getD
        (pyStrip (String.mk "невідомий додаток".data))) = none := rfl
  obtain ⟨a, b, c⟩ :=
    (C5_entity_not_found w5pay rfl rfl (by decide)).1 "невідомий додаток".data hs hr
  exact ⟨hs, a, b, c⟩


/-- Shared invariant of every handler result: confidence within [0, 1], a
supported action, and an empty error list. -/
def okRes (r : IntentResult) : Prop :=
  0 ≤ r.confidence ∧ r.confidence ≤ 1 ∧
  r.response.action ∈ SUPPORTED_ACTIONS ∧ r.response.log.errors = []

theorem handle_run_app_ok (t : String) (p : Payload) (r : IntentResult)
    (h : handle_run_app t p = some r) : okRes r := by
  simp only [handle_run_app] at h
  repeat' split at h
  all_goals first
    | exact Option.noConfusion h
    | (injection h with e; subst e;
       refine ⟨?_, ?_, ?_, rfl⟩ <;> norm_num [intent_response, SUPPORTED_ACTIONS])

theorem handle_focus_window_ok (t : String) (p : Payload) (r : IntentResult)
    (h : handle_focus_window t p = some r) : okRes r := by
  simp only [handle_focus_window] at h
  repeat' split at h
  all_goals first
    | exact Option.noConfusion h
    | (injection h with e; subst e;
       refine ⟨?_, ?_, ?_, rfl⟩ <;> norm_num [intent_response, SUPPORTED_ACTIONS])

theorem handle_hotkey_ok (t : String) (p : Payload) (r : IntentResult)
    (h : handle_hotkey t p = some r) : okRes r := by
  simp only [handle_hotkey] at h
  repeat' split at h
  all_goals first
    | exact Option.noConfusion h
    | (injection h with e; subst e;
       refine ⟨?_, ?_, ?_, rfl⟩ <;> norm_num [intent_response, SUPPORTED_ACTIONS])

theorem handle_audio_control_ok (t : String) (p : Payload) (r : IntentResult)
    (h : handle_audio_control t p = some r) : okRes r := by
  simp only [handle_audio_control] at h
  repeat' split at h
  all_goals first
    | exact Option.noConfusion h
    | (injection h with e; subst e;
       refine ⟨?_, ?_, ?_, rfl⟩ <;> norm_num [intent_response, SUPPORTED_ACTIONS])

theorem handle_system_toggle_ok (t : String) (p : Payload) (r : IntentResult)
    (h : handle_system_toggle t p = some r) : okRes r := by
  simp only [handle_system_toggle] at h
  repeat' split at h
  all_goals first
    | exact Option.noConfusion h
    | (injection h with e; subst e;
       refine ⟨?_, ?_, ?_, rfl⟩ <;> norm_num [intent_response, SUPPORTED_ACTIONS])

theorem handle_open_folder_ok (t : String) (p : Payload) (r : IntentResult)
    (h : handle_open_folder t p = some r) : okRes r := by
  simp only [handle_open_folder] at h
  repeat' split at h
  all_goals first
    | exact Option.noConfusion h
    | (injection h with e; subst e;
       refine ⟨?_, ?_, ?_, rfl⟩ <;> norm_num [intent_response, SUPPORTED_ACTIONS])

theorem handle_file_search_ok (t : String) (p : Payload) (r : IntentResult)
    (h : handle_file_search t p = some r) : okRes r := by
  simp only [handle_file_search] at h
  repeat' split at h
  all_goals first
    | exact Option.noConfusion h
    | (injection h with e; subst e;
       refine ⟨?_, ?_, ?_, rfl⟩ <;> norm_num [intent_response, SUPPORTED_ACTIONS])

theorem handle_file_list_ok (t : String) (p : Payload) (r : IntentResult)
    (h : handle_file_list t p = some r) : okRes r := by
  simp only [handle_file_list] at h
  repeat' split at h
  all_goals first
    | exact Option.noConfusion h
    | (injection h with e; subst e;
       refine ⟨?_, ?_, ?_, rfl⟩ <;> norm_num [intent_response, SUPPORTED_ACTIONS])

theorem handle_mkdir_here_ok (t : String) (p : Payload) (r : IntentResult)
    (h : handle_mkdir_here t p = some r) : okRes r := by
  simp only [handle_mkdir_here] at h
  repeat' split at h
  all_goals first
    | exact Option.noConfusion h
    | (injection h with e; subst e;
       refine ⟨?_, ?_, ?_, rfl⟩ <;> norm_num [intent_response, SUPPORTED_ACTIONS])

theorem handle_open_recent_ok (t : String) (p : Payload) (r : IntentResult)
    (h : handle_open_recent t p = some r) : okRes r := by
  simp only [handle_open_recent] at h
  repeat' split at h
  all_goals first
    | exact Option.noConfusion h
    | (injection h with e; subst e;
       refine ⟨?_, ?_, ?_, rfl⟩ <;> norm_num [intent_response, SUPPORTED_ACTIONS])

theorem handle_text_input_ok (t : String) (p : Payload) (r : IntentResult)
    (h : handle_text_input t p = some r) : okRes r := by
  simp only [handle_text_input] at h
  repeat' split at h
  all_goals first
    | exact Option.noConfusion h
    | (injection h with e; subst e;
       refine ⟨?_, ?_, ?_, rfl⟩ <;> norm_num [intent_response, SUPPORTED_ACTIONS])

theorem handle_web_search_ok (t : String) (p : Payload) (r : IntentResult)
    (h : handle_web_search t p = some r) : okRes r := by
  simp only [handle_web_search] at h
  repeat' split at h
  all_goals first
    | exact Option.noConfusion h
    | (injection h with e; subst e;
       refine ⟨?_, ?_, ?_, rfl⟩ <;> norm_num [intent_response, SUPPORTED_ACTIONS])

theorem handle_speak_results_ok (t : String) (p : Payload) (r : IntentResult)
    (h : handle_speak_results t p = some r) : okRes r := by
  simp only [handle_speak_results] at h
  repeat' split at h
  all_goals first
    | exact Option.noConfusion h
    | (injection h with e; subst e;
       refine ⟨?_, ?_, ?_, rfl⟩ <;> norm_num [intent_response, SUPPORTED_ACTIONS])

theorem handle_macro_mode_ok (t : String) (p : Payload) (r : IntentResult)
    (h : handle_macro_mode t p = some r) : okRes r := by
  simp only [handle_macro_mode] at h
  repeat' split at h
  all_goals first
    | exact Option.noConfusion h
    | (injection h with e; subst e;
       refine ⟨?_, ?_, ?_, rfl⟩ <;> norm_num [intent_response, SUPPORTED_ACTIONS])

theorem handle_llm_summarize_ok (t : String) (p : Payload) (r : IntentResult)
    (h : handle_llm_summarize t p = some r) : okRes r := by
  simp only [handle_llm_summarize] at h
  repeat' split at h
  all_goals first
    | exact Option.noConfusion h
    | (injection h with e; subst e;
       refine ⟨?_, ?_, ?_, rfl⟩ <;> norm_num [intent_response, SUPPORTED_ACTIONS])

theorem handle_llm_query_ok (t : String) (p : Payload) (r : IntentResult)
    (h : handle_llm_query t p = some r) : okRes r := by
  simp only [handle_llm_query] at h
  repeat' split at h
  all_goals first
    | exact Option.noConfusion h
    | (injection h with e; subst e;
       refine ⟨?_, ?_, ?_, rfl⟩ <;> norm_num [intent_response, SUPPORTED_ACTIONS])

theorem intent_handlers_ok :
    ∀ nh ∈ intent_handlers, ∀ t p r, nh.2 t p = some r → okRes r := by
  intro nh hmem t p r h
  fin_cases hmem
  · exact handle_run_app_ok t p r h
  · exact handle_focus_window_ok t p r h
  · exact handle_hotkey_ok t p r h
  · exact handle_audio_control_ok t p r h
  · exact handle_system_toggle_ok t p r h
  · exact handle_open_folder_ok t p r h
  · exact handle_file_search_ok t p r h
  · exact handle_file_list_ok t p r h
  · exact handle_mkdir_here_ok t p r h
  · exact handle_open_recent_ok t p r h
  · exact handle_text_input_ok t p r h
  · exact handle_web_search_ok t p r h
  · exact handle_speak_results_ok t p r h
  · exact handle_macro_mode_ok t p r h
  · exact handle_llm_summarize_ok t p r h
  · exact handle_llm_query_ok t p r h

theorem firstIntent_ok (t : String) (p : Payload) (nm : String) (r : IntentResult)
    (h : firstIntent t p = some (nm, r)) : okRes r := by
  unfold firstIntent at h
  refine findSome_ok (P := fun x => okRes x.2) intent_handlers _ ?_ (nm, r) h
  intro a ha b hb
  cases hab : a.2 t p with
  | none => rw [hab] at hb; cases hb
  | some c =>
    rw [hab] at hb
    injection hb with e
    have := intent_handlers_ok a ha t p c hab
    rw [← e]
    exact this

theorem finishIntent_confidence (p : Payload) (ttsMax : Option Int) (nm : String)
    (r : IntentResult) :
    (finishIntent p ttsMax nm r).log.confidence = r.confidence := by
  simp only [finishIntent]
  repeat' split
  all_goals rfl

theorem finishIntent_action (p : Payload) (ttsMax : Option Int) (nm : String)
    (r : IntentResult) :
    (finishIntent p ttsMax nm r).action = "none" ∨
    (finishIntent p ttsMax nm r).action = r.response.action := by
  simp only [finishIntent]
  repeat' split
  all_goals first
    | exact Or.inl rfl
    | exact Or.inr rfl

theorem gate_deny_action (a : String) (pol : List (String × Bool)) (g : PolicyGate)
    (hg : g ∈ policy_gate_checks a pol) : g.deny_action = "policy_violation" := by
  unfold policy_gate_checks at hg
  cases hga : action_gate_policy a with
  | none => rw [hga] at hg; cases hg
  | some nm =>
    rw [hga] at hg
    rcases List.mem_singleton.mp hg with rfl
    rfl

theorem finishIntent_errors (p : Payload) (ttsMax : Option Int) (nm : String)
    (r : IntentResult) :
    (finishIntent p ttsMax nm r).log.errors = r.response.log.errors ∨
    (finishIntent p ttsMax nm r).log.errors =
      r.response.log.errors ++ ["policy_violation"] := by
  simp only [finishIntent]
  repeat' split
  all_goals try exact Or.inl rfl
  all_goals
    rename_i g hg
  all_goals
    refine Or.inr ?_
  all_goals
    rw [gate_deny_action _ _ _ (List.mem_of_find?_eq_some hg)]

theorem process_request_missing (p : Payload)
    (hstate : p.state = "activated")
    (hll : ¬(truthyStr p.llm_summary = true ∧ pyStrip p.transcript = ""))
    (hc : handle_critical_wrapper (norm_t p) = none)
    (ht : pyStrip p.transcript = "") :
    process_request p = missing_response := by
  simp only [process_request]
  rw [if_neg (fun h => h hstate), if_neg hll, hc]
  simp only []
  rw [if_pos ht]

theorem process_request_unknown (p : Payload)
    (hstate : p.state = "activated")
    (hc : handle_critical_wrapper (norm_t p) = none)
    (hne : pyStrip p.transcript ≠ "")
    (hfi : firstIntent (norm_t p) p = none) :
    process_request p = unknown_response (eff_tts_max p) := by
  simp only [process_request]
  rw [if_neg (fun h => h hstate), if_neg (fun h => hne h.2), hc]
  simp only []
  rw [if_neg hne, hfi]

/-- C7: for every request payload, the response confidence lies in [0, 1]
and the action is a member of the fixed supported-action set, on every code
path of `process_request`. -/
theorem C7_response_invariants (p : Payload) :
    0 ≤ (process_request p).log.confidence ∧
    (process_request p).log.confidence ≤ 1 ∧
    (process_request p).action ∈ SUPPORTED_ACTIONS := by
  by_cases hstate : p.state = "activated"
  case neg =>
    have e : process_request p = idle_response (eff_tts_max p) := by
      simp only [process_request]
      rw [if_pos hstate]
    rw [e]
    exact ⟨by norm_num [idle_response], by norm_num [idle_response],
      by simp [idle_response, SUPPORTED_ACTIONS]⟩
  case pos =>
  by_cases hll : truthyStr p.llm_summary = true ∧ pyStrip p.transcript = ""
  · rw [process_request_summary p hstate hll.1 hll.2]
    exact ⟨by norm_num [summary_response], by norm_num [summary_response],
      by simp [summary_response, SUPPORTED_ACTIONS]⟩
  · cases hc : handle_critical_wrapper (norm_t p) with
    | some r =>
      rw [process_request_critical p r hstate hc]
      obtain ⟨intent, phrase, params, hcp, hr⟩ := critical_wrapper_shape _ _ hc
      subst hr
      exact ⟨by norm_num [finishCritical, intent_response],
        by norm_num [finishCritical, intent_response],
        by simp [finishCritical, intent_response, SUPPORTED_ACTIONS]⟩
    | none =>
      by_cases ht : pyStrip p.transcript = ""
      · rw [process_request_missing p hstate hll hc ht]
        exact ⟨by norm_num [missing_response], by norm_num [missing_response],
          by simp [missing_response, SUPPORTED_ACTIONS]⟩
      · cases hfi : firstIntent (norm_t p) p with
        | some nr =>
          obtain ⟨nm, r⟩ := nr
          rw [process_request_intent p nm r hstate hc ht hfi]
          obtain ⟨c0, c1, ca, ce⟩ := firstIntent_ok _ p nm r hfi
          refine ⟨?_, ?_, ?_⟩
          · rw [finishIntent_confidence]; exact c0
          · rw [finishIntent_confidence]; exact c1
          · rcases finishIntent_action p (eff_tts_max p) nm r with h | h
            · rw [h]; simp [SUPPORTED_ACTIONS]
            · rw [h]; exact ca
        | none =>
          rw [process_request_unknown p hstate hc ht hfi]
          exact ⟨by norm_num [unknown_response], by norm_num [unknown_response],
            by simp [unknown_response, SUPPORTED_ACTIONS]⟩

/-- C8: `process_request` is a total function of the payload — a response
exists on every path — and every recognized condition is encoded inside the
response document: the only error codes ever emitted are the recognized
"policy_violation" and "intent_not_found" codes. -/
theorem C8_total_encoding (p : Payload) :
    ∃ resp : Response, process_request p = resp ∧
      (resp.log.errors = [] ∨ resp.log.errors = ["policy_violation"] ∨
       resp.log.errors = ["intent_not_found"]) := by
  refine ⟨process_request p, rfl, ?_⟩
  by_cases hstate : p.state = "activated"
  case neg =>
    have e : process_request p = idle_response (eff_tts_max p) := by
      simp only [process_request]
      rw [if_pos hstate]
    rw [e]
    exact Or.inl rfl
  case pos =>
  by_cases hll : truthyStr p.llm_summary = true ∧ pyStrip p.transcript = ""
  · rw [process_request_summary p hstate hll.1 hll.2]
    exact Or.inl rfl
  · cases hc : handle_critical_wrapper (norm_t p) with
    | some r =>
      rw [process_request_critical p r hstate hc]
      obtain ⟨intent, phrase, params, hcp, hr⟩ := critical_wrapper_shape _ _ hc
      subst hr
      exact Or.inl rfl
    | none =>
      by_cases ht : pyStrip p.transcript = ""
      · rw [process_request_missing p hstate hll hc ht]
        exact Or.inl rfl
      · cases hfi : firstIntent (norm_t p) p with
        | some nr =>
          obtain ⟨nm, r⟩ := nr
          rw [process_request_intent p nm r hstate hc ht hfi]
          obtain ⟨c0, c1, ca, ce⟩ := firstIntent_ok _ p nm r hfi
          rcases finishIntent_errors p (eff_tts_max p) nm r with h | h
          · rw [h, ce]; exact Or.inl rfl
          · rw [h, ce]; exact Or.inr (Or.inl rfl)
        | none =>
          rw [process_request_unknown p hstate hc ht hfi]
          exact Or.inr (Or.inr rfl)

theorem firstIntent_alias_drop (t : String) (P : Payload)
    (h : handle_run_app t P = none) :
    firstIntent t P =
      (intent_handlers.drop 1).findSome?
        (fun nh => (nh.2 t P).map (fun r => (nh.1, r))) := by
  unfold firstIntent intent_handlers
  simp only [List.findSome?_cons, h, Option.map_none', List.drop_succ_cons,
    List.drop_zero]

/-- C9: the alias table is consulted only by the run_app handler — for every
request whose transcript does not match the run_app pattern, the response is
identical under any two values of the aliases field (the remaining handlers
resolve spoken names directly against their entity lists). -/
theorem C9_alias_independence (p : Payload) (a1 a2 : List AliasEntry)
    (h : searchRunApp (norm_t p).data = none) :
    process_request { p with aliases := a1 } =
    process_request { p with aliases := a2 } := by
  obtain ⟨st, tr, lo, pol, tm, ap, wi, fo, ma, al, rs, ls, en⟩ := p
  show process_request ⟨st, tr, lo, pol, tm, ap, wi, fo, ma, a1, rs, ls, en⟩ =
       process_request ⟨st, tr, lo, pol, tm, ap, wi, fo, ma, a2, rs, ls, en⟩
  have h1 : searchRunApp
      (norm_t ⟨st, tr, lo, pol, tm, ap, wi, fo, ma, a1, rs, ls, en⟩).data = none := h
  have h2 : searchRunApp
      (norm_t ⟨st, tr, lo, pol, tm, ap, wi, fo, ma, a2, rs, ls, en⟩).data = none := h
  by_cases hstate : st = "activated"
  case neg =>
    have e1 : process_request ⟨st, tr, lo, pol, tm, ap, wi, fo, ma, a1, rs, ls, en⟩ =
        idle_response (eff_tts_max ⟨st, tr, lo, pol, tm, ap, wi, fo, ma, a1, rs, ls, en⟩) := by
      simp only [process_request]
      rw [if_pos (hstate :
        (⟨st, tr, lo, pol, tm, ap, wi, fo, ma, a1, rs, ls, en⟩ : Payload).state ≠ "activated")]
    have e2 : process_request ⟨st, tr, lo, pol, tm, ap, wi, fo, ma, a2, rs, ls, en⟩ =
        idle_response (eff_tts_max ⟨st, tr, lo, pol, tm, ap, wi, fo, ma, a2, rs, ls, en⟩) := by
      simp only [process_request]
      rw [if_pos (hstate :
        (⟨st, tr, lo, pol, tm, ap, wi, fo, ma, a2, rs, ls, en⟩ : Payload).state ≠ "activated")]
    rw [e1, e2]
    rfl
  case pos =>
  by_cases hll : truthyStr ls = true ∧ pyStrip tr = ""
  · rw [process_request_summary _ hstate hll.1 hll.2,
        process_request_summary _ hstate hll.1 hll.2]
    rfl
  · cases hc : handle_critical_wrapper
        (norm_t ⟨st, tr, lo, pol, tm, ap, wi, fo, ma, a1, rs, ls, en⟩) with
    | some r =>
      have hc2 : handle_critical_wrapper
          (norm_t ⟨st, tr, lo, pol, tm, ap, wi, fo, ma, a2, rs, ls, en⟩) = some r := hc
      rw [process_request_critical _ r hstate hc,
          process_request_critical _ r hstate hc2]
      rfl
    | none =>
      have hc2 : handle_critical_wrapper
          (norm_t ⟨st, tr, lo, pol, tm, ap, wi, fo, ma, a2, rs, ls, en⟩) = none := hc
      by_cases ht : pyStrip tr = ""
      · rw [process_request_missing _ hstate hll hc ht,
            process_request_missing _ hstate hll hc2 ht]
      · have hra1 : handle_run_app
            (norm_t ⟨st, tr, lo, pol, tm, ap, wi, fo, ma, a1, rs, ls, en⟩)
            ⟨st, tr, lo, pol, tm, ap, wi, fo, ma, a1, rs, ls, en⟩ = none := by
          simp only [handle_run_app, h1]
        have hra2 : handle_run_app
            (norm_t ⟨st, tr, lo, pol, tm, ap, wi, fo, ma, a2, rs, ls, en⟩)
            ⟨st, tr, lo, pol, tm, ap, wi, fo, ma, a2, rs, ls, en⟩ = none := by
          simp only [handle_run_app, h2]
        have htail : firstIntent
            (norm_t ⟨st, tr, lo, pol, tm, ap, wi, fo, ma, a1, rs, ls, en⟩)
            ⟨st, tr, lo, pol, tm, ap, wi, fo, ma, a1, rs, ls, en⟩ =
          firstIntent
            (norm_t ⟨st, tr, lo, pol, tm, ap, wi, fo, ma, a2, rs, ls, en⟩)
            ⟨st, tr, lo, pol, tm, ap, wi, fo, ma, a2, rs, ls, en⟩ := by
          rw [firstIntent_alias_drop _ _ hra1, firstIntent_alias_drop _ _ hra2]
          rfl
        cases hfi : firstIntent
            (norm_t ⟨st, tr, lo, pol, tm, ap, wi, fo, ma, a1, rs, ls, en⟩)
            ⟨st, tr, lo, pol, tm, ap, wi, fo, ma, a1, rs, ls, en⟩ with
        | some nr =>
          obtain ⟨nm, r⟩ := nr
          have hfi2 := htail ▸ hfi
          rw [process_request_intent _ nm r hstate hc ht hfi,
              process_request_intent _ nm r hstate hc2 ht hfi2]
          rfl
        | none =>
          have hfi2 := htail ▸ hfi
          rw [process_request_unknown _ hstate hc ht hfi,
              process_request_unknown _ hstate hc2 ht hfi2]
          rfl

/-- Concrete payload for the C9 witness: no run_app pattern present. -/
def w9pay : Payload := { state := "activated", transcript := "що таке тест" }

/-- C9 witness: with a non-run_app transcript, swapping the alias table for
an empty one leaves the response unchanged. -/
theorem C9_witness :
    searchRunApp (norm_t w9pay).data = none ∧
    process_request { w9pay with
      aliases := [{ name := some "тест", maps_to := some "Notepad" }] } =
      process_request { w9pay with aliases := [] } :=
  ⟨rfl, C9_alias_independence w9pay
    [{ name := some "тест", maps_to := some "Notepad" }] [] rfl⟩
